import Mathlib

/-!
Verification development for the Intel chassis power-control service
(power-control-x86).  The definitions below are a shallow embedding of
`src/services/chassis/power-control-x86/src/power_control.cpp`: the power
state machine, its event handlers, the derived host/chassis state
projection, the persisted power-drop flag, the restore-policy logic, the
masked GPIO pulse engine, and the startup initialization.  Side effects
(timer starts/cancels, GPIO pulses, SMBus commands, journal entries) are
made explicit as `HandlerAction` values emitted by the handlers; the mutable
process state (power state, published properties, power-drop file) is the
`MachineState` record threaded through `applyAction`.
-/

/-- The eleven values of `enum class PowerState` in power_control.cpp. -/
inductive PowerState where
  | on
  | waitForPSPowerOK
  | waitForSIOPowerGood
  | failedTransitionToOn
  | off
  | acLossOff
  | transitionToOff
  | gracefulTransitionToOff
  | cycleOff
  | transitionToCycleOff
  | gracefulTransitionToCycleOff
deriving DecidableEq, Repr

/-- The seventeen values of `enum class Event` in power_control.cpp. -/
inductive Event where
  | psPowerOKAssert
  | psPowerOKDeAssert
  | sioPowerGoodAssert
  | sioPowerGoodDeAssert
  | sioS5Assert
  | sioS5DeAssert
  | powerButtonPressed
  | powerCycleTimerExpired
  | psPowerOKWatchdogTimerExpired
  | sioPowerGoodWatchdogTimerExpired
  | gracefulPowerOffTimerExpired
  | powerOnRequest
  | powerOffRequest
  | powerCycleRequest
  | resetRequest
  | gracefulPowerOffRequest
  | gracefulPowerCycleRequest
deriving DecidableEq, Repr

/-- Timing constants from the constants block of power_control.cpp. -/
def powerPulseTimeMs : Nat := 200

def forceOffPulseTimeMs : Nat := 15000

def resetPulseTimeMs : Nat := 500

def powerCycleTimeMs : Nat := 1000

def sioPowerGoodWatchdogTimeMs : Nat := 1000

def psPowerOKWatchdogTimeMs : Nat := 8000

def gracefulPowerOffTimeMs : Nat := 60000

def buttonMaskTimeMs : Nat := 60000

/-- `getHostState` from power_control.cpp: projection of a `PowerState`
to the published `CurrentHostState` string. -/
def getHostState (state : PowerState) : String :=
  match state with
  | .on
  | .transitionToOff
  | .gracefulTransitionToOff
  | .transitionToCycleOff
  | .gracefulTransitionToCycleOff =>
      "xyz.openbmc_project.State.Host.HostState.Running"
  | .waitForPSPowerOK
  | .waitForSIOPowerGood
  | .failedTransitionToOn
  | .off
  | .cycleOff
  | .acLossOff =>
      "xyz.openbmc_project.State.Host.HostState.Off"

/-- `getChassisState` from power_control.cpp: projection of a
`PowerState` to the published `CurrentPowerState` string. -/
def getChassisState (state : PowerState) : String :=
  match state with
  | .on
  | .transitionToOff
  | .gracefulTransitionToOff
  | .transitionToCycleOff
  | .gracefulTransitionToCycleOff =>
      "xyz.openbmc_project.State.Chassis.PowerState.On"
  | .waitForPSPowerOK
  | .waitForSIOPowerGood
  | .failedTransitionToOn
  | .off
  | .cycleOff
  | .acLossOff =>
      "xyz.openbmc_project.State.Chassis.PowerState.Off"

/-- Mutable process state touched by the state-machine handlers: the
current `powerState`, the contents of the persisted power-drop file, and
the two published D-Bus properties. -/
structure MachineState where
  powerState : PowerState
  powerDrop : String
  currentHostState : String
  currentPowerState : String
deriving DecidableEq, Repr

/-- `setPowerState` from power_control.cpp: stores the new state and
republishes `CurrentHostState` and `CurrentPowerState` from the
projection functions. -/
def setPowerState (state : PowerState) (st : MachineState) : MachineState :=
  { st with
    powerState := state
    currentHostState := getHostState state
    currentPowerState := getChassisState state }

/-- The side-effecting calls a state handler of power_control.cpp can
make, reified as data. -/
inductive HandlerAction where
  | storePowerDropA
  | clearPowerDropA
  | setPowerStateA (state : PowerState)
  | gracefulPowerOffTimerStartA
  | powerCycleTimerStartA
  | psPowerOKWatchdogTimerStartA
  | sioPowerGoodWatchdogTimerStartA
  | cancelGpioAssertTimerA
  | cancelPsPowerOKWatchdogTimerA
  | cancelSioPowerGoodWatchdogTimerA
  | cancelGracefulPowerOffTimerA
  | powerOnA
  | gracefulPowerOffA
  | forcePowerOffA
  | resetA
  | acOnLogA
  | noActionLogA
deriving DecidableEq, Repr

/-- Handler for `PowerState::on` (`powerStateOn` in power_control.cpp). -/
def powerStateOn (event : Event) : List HandlerAction :=
  match event with
  | .psPowerOKDeAssert => [.storePowerDropA, .setPowerStateA .off]
  | .sioS5Assert => [.setPowerStateA .transitionToOff]
  | .powerButtonPressed =>
      [.setPowerStateA .gracefulTransitionToOff, .gracefulPowerOffTimerStartA]
  | .powerOffRequest => [.setPowerStateA .transitionToOff, .forcePowerOffA]
  | .gracefulPowerOffRequest =>
      [.setPowerStateA .gracefulTransitionToOff, .gracefulPowerOffTimerStartA,
       .gracefulPowerOffA]
  | .powerCycleRequest =>
      [.setPowerStateA .transitionToCycleOff, .forcePowerOffA]
  | .gracefulPowerCycleRequest =>
      [.setPowerStateA .gracefulTransitionToCycleOff,
       .gracefulPowerOffTimerStartA, .gracefulPowerOffA]
  | .resetRequest => [.resetA]
  | _ => [.noActionLogA]

/-- Handler for `PowerState::waitForPSPowerOK`. -/
def powerStateWaitForPSPowerOK (event : Event) : List HandlerAction :=
  match event with
  | .psPowerOKAssert =>
      [.cancelGpioAssertTimerA, .cancelPsPowerOKWatchdogTimerA,
       .sioPowerGoodWatchdogTimerStartA, .setPowerStateA .waitForSIOPowerGood]
  | .psPowerOKWatchdogTimerExpired => [.setPowerStateA .failedTransitionToOn]
  | _ => [.noActionLogA]

/-- Handler for `PowerState::waitForSIOPowerGood`. -/
def powerStateWaitForSIOPowerGood (event : Event) : List HandlerAction :=
  match event with
  | .sioPowerGoodAssert =>
      [.cancelSioPowerGoodWatchdogTimerA, .setPowerStateA .on]
  | .sioPowerGoodWatchdogTimerExpired =>
      [.setPowerStateA .failedTransitionToOn, .forcePowerOffA]
  | _ => [.noActionLogA]

/-- Handler for `PowerState::failedTransitionToOn`. -/
def powerStateFailedTransitionToOn (event : Event) : List HandlerAction :=
  match event with
  | .psPowerOKAssert => [.forcePowerOffA]
  | .psPowerOKDeAssert => [.cancelGpioAssertTimerA]
  | .powerButtonPressed =>
      [.psPowerOKWatchdogTimerStartA, .setPowerStateA .waitForPSPowerOK]
  | .powerOnRequest =>
      [.psPowerOKWatchdogTimerStartA, .setPowerStateA .waitForPSPowerOK,
       .powerOnA]
  | _ => [.noActionLogA]

/-- Handler for `PowerState::off`. -/
def powerStateOff (event : Event) : List HandlerAction :=
  match event with
  | .psPowerOKAssert =>
      [.clearPowerDropA, .setPowerStateA .waitForSIOPowerGood]
  | .powerButtonPressed =>
      [.clearPowerDropA, .psPowerOKWatchdogTimerStartA,
       .setPowerStateA .waitForPSPowerOK]
  | .powerOnRequest =>
      [.clearPowerDropA, .psPowerOKWatchdogTimerStartA,
       .setPowerStateA .waitForPSPowerOK, .powerOnA]
  | _ => [.noActionLogA]

/-- Handler for `PowerState::acLossOff`. -/
def powerStateACLossOff (event : Event) : List HandlerAction :=
  match event with
  | .psPowerOKAssert =>
      [.acOnLogA, .clearPowerDropA, .setPowerStateA .waitForSIOPowerGood]
  | .powerButtonPressed =>
      [.acOnLogA, .psPowerOKWatchdogTimerStartA, .clearPowerDropA,
       .setPowerStateA .waitForPSPowerOK]
  | .powerOnRequest =>
      [.acOnLogA, .psPowerOKWatchdogTimerStartA, .clearPowerDropA,
       .setPowerStateA .waitForPSPowerOK, .powerOnA]
  | _ => [.noActionLogA]

/-- Handler for `PowerState::transitionToOff`. -/
def powerStateTransitionToOff (event : Event) : List HandlerAction :=
  match event with
  | .psPowerOKDeAssert => [.cancelGpioAssertTimerA, .setPowerStateA .off]
  | _ => [.noActionLogA]

/-- Handler for `PowerState::gracefulTransitionToOff`. -/
def powerStateGracefulTransitionToOff (event : Event) : List HandlerAction :=
  match event with
  | .psPowerOKDeAssert =>
      [.cancelGracefulPowerOffTimerA, .setPowerStateA .off]
  | .gracefulPowerOffTimerExpired => [.setPowerStateA .on]
  | _ => [.noActionLogA]

/-- Handler for `PowerState::cycleOff`. -/
def powerStateCycleOff (event : Event) : List HandlerAction :=
  match event with
  | .powerCycleTimerExpired =>
      [.psPowerOKWatchdogTimerStartA, .setPowerStateA .waitForPSPowerOK,
       .powerOnA]
  | _ => [.noActionLogA]

/-- Handler for `PowerState::transitionToCycleOff`. -/
def powerStateTransitionToCycleOff (event : Event) : List HandlerAction :=
  match event with
  | .psPowerOKDeAssert =>
      [.cancelGpioAssertTimerA, .setPowerStateA .cycleOff,
       .powerCycleTimerStartA]
  | _ => [.noActionLogA]

/-- Handler for `PowerState::gracefulTransitionToCycleOff`. -/
def powerStateGracefulTransitionToCycleOff (event : Event) : List HandlerAction :=
  match event with
  | .psPowerOKDeAssert =>
      [.cancelGracefulPowerOffTimerA, .setPowerStateA .cycleOff,
       .powerCycleTimerStartA]
  | .gracefulPowerOffTimerExpired => [.setPowerStateA .on]
  | _ => [.noActionLogA]

/-- `getPowerStateHandler` from power_control.cpp: dispatch the current
state to its handler.  The C++ `default:` branch (null handler) is
unreachable because `PowerState` has exactly the eleven listed values. -/
def getPowerStateHandler (state : PowerState) : Event → List HandlerAction :=
  match state with
  | .on => powerStateOn
  | .waitForPSPowerOK => powerStateWaitForPSPowerOK
  | .waitForSIOPowerGood => powerStateWaitForSIOPowerGood
  | .failedTransitionToOn => powerStateFailedTransitionToOn
  | .off => powerStateOff
  | .acLossOff => powerStateACLossOff
  | .transitionToOff => powerStateTransitionToOff
  | .gracefulTransitionToOff => powerStateGracefulTransitionToOff
  | .cycleOff => powerStateCycleOff
  | .transitionToCycleOff => powerStateTransitionToCycleOff
  | .gracefulTransitionToCycleOff => powerStateGracefulTransitionToCycleOff

/-- Interpretation of one reified `HandlerAction` on the mutable process state.
`storePowerDrop` writes the literal `Yes` to the power-drop file,
`clearPowerDrop` writes `No`, and `setPowerStateA` behaves as
`setPowerState`; timer, GPIO, SMBus and journal actions do not touch
this state. -/
def applyAction (st : MachineState) (a : HandlerAction) : MachineState :=
  match a with
  | .storePowerDropA => { st with powerDrop := "Yes" }
  | .clearPowerDropA => { st with powerDrop := "No" }
  | .setPowerStateA s => setPowerState s st
  | _ => st

/-- Apply a handler's action list left to right. -/
def applyActions (acts : List HandlerAction) (st : MachineState) : MachineState :=
  acts.foldl applyAction st

/-- `sendPowerControlEvent` from power_control.cpp: dispatch one event to
the handler of the current power state. -/
def sendPowerControlEvent (st : MachineState) (event : Event) : MachineState :=
  applyActions (getPowerStateHandler st.powerState event) st

/-- Run a whole trace of events through the state machine. -/
def runEvents (st : MachineState) (events : List Event) : MachineState :=
  events.foldl sendPowerControlEvent st

/-- Claim C1: for every PowerState, `CurrentHostState` is `Running`
exactly on the five states On, TransitionToOff, GracefulTransitionToOff,
TransitionToCycleOff, GracefulTransitionToCycleOff and `Off` on the other
six; `CurrentPowerState` is `On` on exactly the same five states and
`Off` otherwise; and every call to `setPowerState` republishes both
properties from this projection. -/
theorem claim_C1_state_projection :
    ∀ (s : PowerState) (st : MachineState),
      ((getHostState s = "xyz.openbmc_project.State.Host.HostState.Running") ↔
        (s = .on ∨ s = .transitionToOff ∨ s = .gracefulTransitionToOff ∨
         s = .transitionToCycleOff ∨ s = .gracefulTransitionToCycleOff)) ∧
      ((getHostState s = "xyz.openbmc_project.State.Host.HostState.Off") ↔
        ¬(s = .on ∨ s = .transitionToOff ∨ s = .gracefulTransitionToOff ∨
          s = .transitionToCycleOff ∨ s = .gracefulTransitionToCycleOff)) ∧
      ((getChassisState s = "xyz.openbmc_project.State.Chassis.PowerState.On") ↔
        (s = .on ∨ s = .transitionToOff ∨ s = .gracefulTransitionToOff ∨
         s = .transitionToCycleOff ∨ s = .gracefulTransitionToCycleOff)) ∧
      ((getChassisState s = "xyz.openbmc_project.State.Chassis.PowerState.Off") ↔
        ¬(s = .on ∨ s = .transitionToOff ∨ s = .gracefulTransitionToOff ∨
          s = .transitionToCycleOff ∨ s = .gracefulTransitionToCycleOff)) ∧
      (setPowerState s st).currentHostState = getHostState s ∧
      (setPowerState s st).currentPowerState = getChassisState s ∧
      (setPowerState s st).powerState = s := by
  intro s st
  refine ⟨?_, ?_, ?_, ?_, rfl, rfl, rfl⟩ <;> cases s <;> decide

/-- Claim C2: the power-drop flag is written `Yes` exactly by
`PsPowerOKDeAssert` handled in state On, written `No` exactly by one of
`PsPowerOKAssert`, `PowerButtonPressed`, `PowerOnRequest` handled in
state Off or AcLossOff, and is untouched by every other (state, event)
pair. -/
theorem claim_C2_power_drop_flag :
    ∀ (st : MachineState) (e : Event),
      (HandlerAction.storePowerDropA ∈ getPowerStateHandler st.powerState e ↔
        (st.powerState = .on ∧ e = .psPowerOKDeAssert)) ∧
      (HandlerAction.clearPowerDropA ∈ getPowerStateHandler st.powerState e ↔
        ((st.powerState = .off ∨ st.powerState = .acLossOff) ∧
         (e = .psPowerOKAssert ∨ e = .powerButtonPressed ∨
          e = .powerOnRequest))) ∧
      (sendPowerControlEvent st e).powerDrop =
        (if st.powerState = .on ∧ e = .psPowerOKDeAssert then "Yes"
         else if (st.powerState = .off ∨ st.powerState = .acLossOff) ∧
                 (e = .psPowerOKAssert ∨ e = .powerButtonPressed ∨
                  e = .powerOnRequest) then "No"
         else st.powerDrop) := by
  intro st e
  obtain ⟨s, d, h, c⟩ := st
  cases s <;> cases e <;>
    simp [sendPowerControlEvent, getPowerStateHandler, applyActions,
      applyAction, setPowerState, powerStateOn, powerStateWaitForPSPowerOK,
      powerStateWaitForSIOPowerGood, powerStateFailedTransitionToOn,
      powerStateOff, powerStateACLossOff, powerStateTransitionToOff,
      powerStateGracefulTransitionToOff, powerStateCycleOff,
      powerStateTransitionToCycleOff, powerStateGracefulTransitionToCycleOff]

/-- Modelled from the spec: the set of (state, event) pairs listed in the
transition table of spec section 4.C7.  Compared below against the
handlers embedded from the source. -/
def specTransitionListed (s : PowerState) (e : Event) : Bool :=
  match s, e with
  | .on, .psPowerOKDeAssert | .on, .sioS5Assert | .on, .powerButtonPressed
  | .on, .powerOffRequest | .on, .gracefulPowerOffRequest
  | .on, .powerCycleRequest | .on, .gracefulPowerCycleRequest
  | .on, .resetRequest => true
  | .waitForPSPowerOK, .psPowerOKAssert
  | .waitForPSPowerOK, .psPowerOKWatchdogTimerExpired => true
  | .waitForSIOPowerGood, .sioPowerGoodAssert
  | .waitForSIOPowerGood, .sioPowerGoodWatchdogTimerExpired => true
  | .failedTransitionToOn, .psPowerOKAssert
  | .failedTransitionToOn, .psPowerOKDeAssert
  | .failedTransitionToOn, .powerButtonPressed
  | .failedTransitionToOn, .powerOnRequest => true
  | .off, .psPowerOKAssert | .off, .powerButtonPressed
  | .off, .powerOnRequest => true
  | .acLossOff, .psPowerOKAssert | .acLossOff, .powerButtonPressed
  | .acLossOff, .powerOnRequest => true
  | .transitionToOff, .psPowerOKDeAssert => true
  | .gracefulTransitionToOff, .psPowerOKDeAssert
  | .gracefulTransitionToOff, .gracefulPowerOffTimerExpired => true
  | .cycleOff, .powerCycleTimerExpired => true
  | .transitionToCycleOff, .psPowerOKDeAssert => true
  | .gracefulTransitionToCycleOff, .psPowerOKDeAssert
  | .gracefulTransitionToCycleOff, .gracefulPowerOffTimerExpired => true
  | _, _ => false

/-- Claim C3: any (state, event) pair outside the spec's transition table
is a no-op: the whole machine state (in particular the PowerState) is
unchanged and the handler only emits the "No action taken" log. -/
theorem claim_C3_unlisted_pairs_are_noops :
    ∀ (st : MachineState) (e : Event),
      specTransitionListed st.powerState e = false →
      sendPowerControlEvent st e = st ∧
      getPowerStateHandler st.powerState e = [HandlerAction.noActionLogA] := by
  intro st e h
  obtain ⟨s, d, hh, c⟩ := st
  cases s <;> cases e <;>
    simp_all [specTransitionListed, sendPowerControlEvent,
      getPowerStateHandler, applyActions, applyAction, setPowerState,
      powerStateOn, powerStateWaitForPSPowerOK, powerStateWaitForSIOPowerGood,
      powerStateFailedTransitionToOn, powerStateOff, powerStateACLossOff,
      powerStateTransitionToOff, powerStateGracefulTransitionToOff,
      powerStateCycleOff, powerStateTransitionToCycleOff,
      powerStateGracefulTransitionToCycleOff]

/-- Witness for claim C3: in state Off a `ResetRequest` is unlisted and
leaves the machine state untouched. -/
theorem claim_C3_unlisted_pairs_are_noops_witness :
    specTransitionListed PowerState.off Event.resetRequest = false ∧
    sendPowerControlEvent ⟨.off, "No", "h", "c"⟩ .resetRequest =
      ⟨.off, "No", "h", "c"⟩ :=
  ⟨by decide,
   (claim_C3_unlisted_pairs_are_noops ⟨.off, "No", "h", "c"⟩ .resetRequest
      (by decide)).1⟩

/-- Which GPIO handle a timed output pulse is applied to. -/
inductive PulseTarget where
  | viaMaskLine
  | viaBaseLine
deriving DecidableEq, Repr

/-- Observable outcome of one timed output pulse: the handle used,
whether the base line was requested/acquired, the driven value, the
value restored on timer expiry, and the pulse duration. -/
structure PulseOutcome where
  target : PulseTarget
  baseLineRequested : Bool
  assertedValue : Nat
  releaseValue : Nat
  durationMs : Nat
deriving DecidableEq, Repr

/-- `setMaskedGPIOOutputForMs` from power_control.cpp: drives the held
MaskLine handle to `value`, arms the gpioAssert timer for `durationMs`,
and on expiry sets the MaskLine back to `!value`.  The base line is never
requested. -/
def setMaskedGPIOOutputForMs (value durationMs : Nat) : PulseOutcome :=
  { target := .viaMaskLine
    baseLineRequested := false
    assertedValue := value
    releaseValue := if value = 0 then 1 else 0
    durationMs := durationMs }

/-- `setGPIOOutputForMs` from power_control.cpp: if the named line is
POWER_OUT (resp. RESET_OUT) and the corresponding button-mask line is
held, the pulse goes through the MaskLine; otherwise the base line is
requested, driven, and released on timer expiry. -/
def setGPIOOutputForMs (name : String) (powerButtonMaskHeld : Bool)
    (resetButtonMaskHeld : Bool) (value durationMs : Nat) : PulseOutcome :=
  if powerButtonMaskHeld = true ∧ name = "POWER_OUT" then
    setMaskedGPIOOutputForMs value durationMs
  else if resetButtonMaskHeld = true ∧ name = "RESET_OUT" then
    setMaskedGPIOOutputForMs value durationMs
  else
    { target := .viaBaseLine
      baseLineRequested := true
      assertedValue := value
      releaseValue := if value = 0 then 1 else 0
      durationMs := durationMs }

/-- Claim C8: a pulse on POWER_OUT (resp. RESET_OUT) while the
corresponding MaskLine is held goes to the MaskLine with the requested
value, timed release, and duration, and never requests the base line;
without a MaskLine the base line is requested and driven normally. -/
theorem claim_C8_masked_pulse_discipline :
    ∀ (pm rm : Bool) (v d : Nat),
      (setGPIOOutputForMs "POWER_OUT" true rm v d).target = .viaMaskLine ∧
      (setGPIOOutputForMs "POWER_OUT" true rm v d).baseLineRequested = false ∧
      (setGPIOOutputForMs "POWER_OUT" true rm v d).assertedValue = v ∧
      (setGPIOOutputForMs "POWER_OUT" true rm v d).releaseValue =
        (if v = 0 then 1 else 0) ∧
      (setGPIOOutputForMs "POWER_OUT" true rm v d).durationMs = d ∧
      (setGPIOOutputForMs "RESET_OUT" pm true v d).target = .viaMaskLine ∧
      (setGPIOOutputForMs "RESET_OUT" pm true v d).baseLineRequested = false ∧
      (setGPIOOutputForMs "RESET_OUT" pm true v d).assertedValue = v ∧
      (setGPIOOutputForMs "RESET_OUT" pm true v d).durationMs = d ∧
      (setGPIOOutputForMs "POWER_OUT" false rm v d).target = .viaBaseLine ∧
      (setGPIOOutputForMs "POWER_OUT" false rm v d).baseLineRequested = true ∧
      (setGPIOOutputForMs "RESET_OUT" pm false v d).target = .viaBaseLine ∧
      (setGPIOOutputForMs "RESET_OUT" pm false v d).baseLineRequested = true := by
  intro pm rm v d
  cases pm <;> cases rm <;>
    simp [setGPIOOutputForMs, setMaskedGPIOOutputForMs]

/-- The POWER_OUT pulse issued by `forcePowerOff` in power_control.cpp. -/
def forcePowerOffPulse (powerButtonMaskHeld resetButtonMaskHeld : Bool) :
    PulseOutcome :=
  setGPIOOutputForMs "POWER_OUT" powerButtonMaskHeld resetButtonMaskHeld 0
    forceOffPulseTimeMs

/-- Steps taken by the gpioAssert-timer expiry continuation that
`forcePowerOff` registers. -/
inductive ForceOffStep where
  | sendSmbus (bus slave reg value : Nat)
  | logOverrideFailed
  | logSmbusFailed
deriving DecidableEq, Repr

/-- Recognize an SMBus send among the force-off continuation steps. -/
def isSmbusSend (a : ForceOffStep) : Bool :=
  match a with
  | .sendSmbus _ _ _ _ => true
  | _ => false

/-- The expiry continuation of `forcePowerOff` in power_control.cpp: if
the gpioAssert timer was cancelled before expiry (error code
operation_aborted) it does nothing; otherwise it logs, writes byte 0x02
to register 0x00 of SMBus slave 0x44 on bus 3 via `i2cSet`, and on a
negative `i2cSet` result only logs the failure. -/
def forceOffOnTimerExpiry (cancelled : Bool) (i2cResult : Int) :
    List ForceOffStep :=
  if cancelled then []
  else
    [.logOverrideFailed, .sendSmbus 3 0x44 0x00 0x02] ++
      (if i2cResult < 0 then [.logSmbusFailed] else [])

/-- Claim C4: `forcePowerOff` holds POWER_OUT low for 15000 ms; on
uncancelled timer expiry it sends exactly the SMBus command byte 0x02 to
register 0x00 of slave 0x44 on bus 3, at most once per invocation; a
cancelled timer skips the escalation; SMBus failure is only logged. -/
theorem claim_C4_force_power_off :
    ∀ (pm rm cancelled : Bool) (r : Int),
      (forcePowerOffPulse pm rm).assertedValue = 0 ∧
      (forcePowerOffPulse pm rm).durationMs = 15000 ∧
      forceOffOnTimerExpiry true r = [] ∧
      List.countP isSmbusSend (forceOffOnTimerExpiry cancelled r) ≤ 1 ∧
      (cancelled = false →
        ForceOffStep.sendSmbus 3 0x44 0x00 0x02 ∈ forceOffOnTimerExpiry cancelled r) ∧
      (r < 0 →
        forceOffOnTimerExpiry false r =
          [.logOverrideFailed, .sendSmbus 3 0x44 0x00 0x02, .logSmbusFailed]) := by
  intro pm rm cancelled r
  refine ⟨?_, ?_, ?_, ?_, ?_, ?_⟩
  · cases pm <;> cases rm <;>
      simp [forcePowerOffPulse, setGPIOOutputForMs, setMaskedGPIOOutputForMs]
  · cases pm <;> cases rm <;>
      simp [forcePowerOffPulse, setGPIOOutputForMs, setMaskedGPIOOutputForMs,
        forceOffPulseTimeMs]
  · simp [forceOffOnTimerExpiry]
  · cases cancelled <;>
      rcases lt_or_le r 0 with h | h <;>
      simp [forceOffOnTimerExpiry, h, not_lt.mpr h, List.countP, List.countP.go,
        isSmbusSend]
  · intro hc
    subst hc
    rcases lt_or_le r 0 with h | h <;> simp [forceOffOnTimerExpiry, h, not_lt.mpr h]
  · intro hr
    simp [forceOffOnTimerExpiry, hr]

/-- Witness for claim C4 at the concrete input cancelled = false,
i2c result -1. -/
theorem claim_C4_force_power_off_witness :
    (forcePowerOffPulse false false).durationMs = 15000 ∧
    ForceOffStep.sendSmbus 3 0x44 0x00 0x02 ∈ forceOffOnTimerExpiry false (-1) ∧
    forceOffOnTimerExpiry false (-1) =
      [.logOverrideFailed, .sendSmbus 3 0x44 0x00 0x02, .logSmbusFailed] := by
  have h := claim_C4_force_power_off false false false (-1)
  exact ⟨h.2.1, h.2.2.2.2.1 rfl, h.2.2.2.2.2 (by decide)⟩

/-- Result of the power-state initialization in `main`
(power_control.cpp:1549-1575). -/
structure StartupResult where
  state : PowerState
  acOnLogged : Bool
  restorePolicyStarted : Bool
deriving DecidableEq, Repr

/-- `isACBoot` from power_control.cpp: opens `/dev/lpc-sio`, issues the
SIO_GET_PFAIL_STATUS ioctl (substituting data 0 on ioctl error), and
returns whether the resulting data is non-zero; an open failure returns
false. -/
def isACBoot (openOk ioctlOk : Bool) (pfailData : Int) : Bool :=
  if openOk then decide ((if ioctlOk then pfailData else 0) ≠ 0) else false

/-- Power-state initialization in `main`: start from Off, move to On if
the PS_PWROK line reads greater than zero; on an AC boot, log the
AC-loss entry if On, otherwise move to AcLossOff; in either AC-boot
branch start the restore policy. -/
def startupInitialState (psPwrOkValue : Int) (acBoot : Bool) : StartupResult :=
  let st0 := if psPwrOkValue > 0 then PowerState.on else PowerState.off
  if acBoot then
    if st0 = PowerState.on then ⟨st0, true, true⟩
    else ⟨PowerState.acLossOff, false, true⟩
  else ⟨st0, false, false⟩

/-- Claim C5: with the lpc-sio device readable, the initial PowerState
is On exactly when PS_PWROK reads asserted, else Off; when PfailStatus
is non-zero the AC-loss telemetry is logged immediately if On, else the
state becomes AcLossOff with the restore policy started; when
PfailStatus is zero neither the telemetry nor the AcLossOff/restore
hand-off happens. -/
theorem claim_C5_startup_initial_state :
    ∀ (ps pf : Int),
      isACBoot true true pf = decide (pf ≠ 0) ∧
      (startupInitialState ps (isACBoot true true pf)).state =
        (if pf ≠ 0 then (if ps > 0 then .on else .acLossOff)
         else (if ps > 0 then .on else .off)) ∧
      (startupInitialState ps (isACBoot true true pf)).acOnLogged =
        (decide (pf ≠ 0) && decide (ps > 0)) ∧
      (startupInitialState ps (isACBoot true true pf)).restorePolicyStarted =
        decide (pf ≠ 0) := by
  intro ps pf
  by_cases hpf : pf = 0 <;> by_cases hps : ps > 0 <;>
    simp [isACBoot, startupInitialState, hpf, hps]

/-- The full AlwaysOn policy name string from power_control.cpp. -/
def alwaysOnPolicyName : String :=
  "xyz.openbmc_project.Control.Power.RestorePolicy.Policy.AlwaysOn"

/-- The full Restore policy name string from power_control.cpp. -/
def restorePolicyName : String :=
  "xyz.openbmc_project.Control.Power.RestorePolicy.Policy.Restore"

/-- `wasPowerDropped` from power_control.cpp: an unreadable power-drop
file yields false, otherwise the first line is compared with `Yes`. -/
def wasPowerDropped (dropFile : Option String) : Bool :=
  match dropFile with
  | none => false
  | some drop => decide (drop = "Yes")

/-- `invokePowerRestorePolicy` from power_control.cpp: guarded by the
`policyInvoked` flag; AlwaysOn sends PowerOnRequest, Restore sends
PowerOnRequest iff the power-drop file reads Yes, any other policy does
nothing.  Returns the new flag value and the events sent. -/
def invokePowerRestorePolicy (policyInvoked : Bool) (policy : String)
    (dropFile : Option String) : Bool × List Event :=
  if policyInvoked then (policyInvoked, [])
  else if policy = alwaysOnPolicyName then (true, [Event.powerOnRequest])
  else if policy = restorePolicyName then
    (true, if wasPowerDropped dropFile then [Event.powerOnRequest] else [])
  else (true, [])

/-- Claim C6: AlwaysOn enqueues PowerOnRequest; Restore enqueues
PowerOnRequest exactly when the persisted PowerDropFlag reads Yes and
nothing otherwise; any other policy enqueues nothing; and a second
invocation (guard flag already set) is ignored. -/
theorem claim_C6_restore_policy_actions :
    ∀ (policy : String) (dropFile : Option String) (invoked : Bool),
      (invokePowerRestorePolicy true policy dropFile).2 = [] ∧
      (invokePowerRestorePolicy false alwaysOnPolicyName dropFile).2 =
        [Event.powerOnRequest] ∧
      ((invokePowerRestorePolicy false restorePolicyName dropFile).2 =
          [Event.powerOnRequest] ↔ wasPowerDropped dropFile = true) ∧
      ((invokePowerRestorePolicy false restorePolicyName dropFile).2 = [] ↔
        wasPowerDropped dropFile = false) ∧
      (policy ≠ alwaysOnPolicyName → policy ≠ restorePolicyName →
        (invokePowerRestorePolicy false policy dropFile).2 = []) ∧
      (invokePowerRestorePolicy invoked policy dropFile).1 = true := by
  intro policy dropFile invoked
  have hne : alwaysOnPolicyName ≠ restorePolicyName := by decide
  refine ⟨?_, ?_, ?_, ?_, ?_, ?_⟩
  · simp [invokePowerRestorePolicy]
  · simp [invokePowerRestorePolicy]
  · cases h : wasPowerDropped dropFile <;>
      simp [invokePowerRestorePolicy, hne.symm, h]
  · cases h : wasPowerDropped dropFile <;>
      simp [invokePowerRestorePolicy, hne.symm, h]
  · intro h1 h2
    simp [invokePowerRestorePolicy, h1, h2]
  · cases invoked
    · simp only [invokePowerRestorePolicy]
      split_ifs <;> simp_all
    · rfl

/-- Witness for claim C6: the AlwaysOff policy string enqueues nothing
even with the drop file reading Yes. -/
theorem claim_C6_restore_policy_actions_witness :
    (invokePowerRestorePolicy false
      "xyz.openbmc_project.Control.Power.RestorePolicy.Policy.AlwaysOff"
      (some "Yes")).2 = [] :=
  (claim_C6_restore_policy_actions
    "xyz.openbmc_project.Control.Power.RestorePolicy.Policy.AlwaysOff"
    (some "Yes") false).2.2.2.2.1 (by decide) (by decide)

/-- The approximate u-boot duration constant of power_control.cpp. -/
def ubootSeconds : Int := 20

/-- The delay computation of `powerRestorePolicyDelay` in
power_control.cpp: subtract `ubootSeconds`, subtract the system uptime
when `sysinfo` succeeds, then clamp at a minimum of 0. -/
def powerRestorePolicyDelay (delay : Int) (sysinfoOk : Bool) (uptime : Int) :
    Int :=
  let d1 := delay - ubootSeconds
  let d2 := if sysinfoOk then d1 - uptime else d1
  max d2 0

/-- Claim C7: with uptime readable, the armed power-restore delay equals
max(0, configured - 20 - uptime); in particular a configured delay of 30
with uptime 5 arms a 5-second delay. -/
theorem claim_C7_restore_delay_value :
    ∀ (d u : Int),
      powerRestorePolicyDelay d true u = max 0 (d - 20 - u) ∧
      powerRestorePolicyDelay 30 true 5 = 5 := by
  intro d u
  constructor
  · simp [powerRestorePolicyDelay, ubootSeconds, max_comm]
  · decide

/-- The values the four button GPIO lines read at startup. -/
structure ButtonLineReads where
  powerLine : Int
  resetLine : Int
  nmiLine : Int
  idLine : Int
deriving DecidableEq, Repr

/-- The initial `ButtonPressed` property of each button object. -/
structure InitialButtonPressedProps where
  power : Bool
  reset : Bool
  nmi : Bool
  id : Bool
deriving DecidableEq, Repr

/-- The startup ButtonPressed initialization in `main`
(power_control.cpp:1710-1819): each property is true when the line value
read is 0.  The reset button's value is read from `powerButtonLine`, not
`resetButtonLine` (power_control.cpp:1760). -/
def initialButtonPressedProps (r : ButtonLineReads) : InitialButtonPressedProps :=
  { power := decide (r.powerLine = 0)
    reset := decide (r.powerLine = 0)
    nmi := decide (r.nmiLine = 0)
    id := decide (r.idLine = 0) }

/-- Claim C9 fails on the code: with the power button released (line
reads 1) and the reset button pressed (line reads 0), the reset button's
ButtonPressed property is initialized to false, because `main` reads the
POWER_BUTTON line for the reset button; conversely pressing only the
power button initializes the reset property to true. -/
theorem claim_C9_reset_button_init_uses_power_line :
    (initialButtonPressedProps ⟨1, 0, 1, 1⟩).reset = false ∧
    (⟨1, 0, 1, 1⟩ : ButtonLineReads).resetLine = 0 ∧
    (initialButtonPressedProps ⟨1, 0, 1, 1⟩).power = false ∧
    (initialButtonPressedProps ⟨0, 1, 1, 1⟩).reset = true := by decide

/-- A kernel-reported GPIO edge. -/
inductive GpioEdge where
  | falling
  | rising
deriving DecidableEq, Repr

/-- `powerButtonHandler` from power_control.cpp: a falling edge sets the
ButtonPressed property to true and sends `powerButtonPressed` to the
state machine only when no power-button MaskLine is held; a rising edge
sets the property to false.  First component: property update (none
means untouched); second: events delivered. -/
def powerButtonHandlerStep (maskHeld : Bool) (edge : GpioEdge) :
    Option Bool × List Event :=
  match edge with
  | .falling =>
      (some true, if maskHeld then [] else [Event.powerButtonPressed])
  | .rising => (some false, [])

/-- Claim C10: a POWER_BUTTON falling edge processed while the
power-button MaskLine is held still sets ButtonPressed to true but
delivers no event to the state machine, so the machine state is
unchanged; unmasked, the event is delivered. -/
theorem claim_C10_masked_power_button_press :
    ∀ (st : MachineState),
      (powerButtonHandlerStep true .falling).1 = some true ∧
      (powerButtonHandlerStep true .falling).2 = [] ∧
      runEvents st (powerButtonHandlerStep true .falling).2 = st ∧
      (powerButtonHandlerStep false .falling).2 = [Event.powerButtonPressed] := by
  intro st
  refine ⟨rfl, by simp [powerButtonHandlerStep], ?_, by simp [powerButtonHandlerStep]⟩
  have h : (powerButtonHandlerStep true .falling).2 = [] := by
    simp [powerButtonHandlerStep]
  rw [h]
  rfl
